import Mathlib

/-!
Shallow embedding of the rekapundi ledger repository layer (Rust + sqlx +
PostgreSQL) and proofs about its specification claims.

Modelling conventions:
* Machine integers (`i32`, `i16`, `i64`) are modelled as `Int`; none of the
  verified operations can overflow in a way the claims depend on.
* SQL dates are modelled as `Int` day ordinals: the queries only compare
  dates with a linear order (`BETWEEN`, `<=`, `>=`).
* A database is a record of tables (lists of rows, in physical insertion
  order) plus the id-sequence counters used by `RETURNING id`.
* Every SQL statement is a function from a database to `Except DbError`:
  a multi-row `INSERT` built by sqlx `QueryBuilder::push_values` over an
  empty collection produces the text `INSERT INTO t (cols) VALUES ` with no
  value tuple, which PostgreSQL rejects as a syntax error; this is modelled
  by `DbError.invalidStatement`.  Foreign-key checks are modelled against
  the referenced tables and fail with `DbError.foreignKeyViolation`.
* A `Transaction` is modelled by explicit state passing: each repository
  operation returns the post-call database together with its result; any
  statement error before `commit` returns the *original* database
  (sqlx rolls a dropped transaction back).
-/

namespace Rekapundi

/-- Row of the `expense` table (src/entities + schema implied by the queries). -/
structure ExpenseRow where
  id : Int
  amount : Int
  date : Int
  description : Option String
  priority : Int
  category_id : Int
  wallet_id : Int
deriving DecidableEq

/-- Row of the `expense_tag` association table. -/
structure ExpenseTagRow where
  expense_id : Int
  tag_id : Int
deriving DecidableEq

/-- Row of the `income` table. -/
structure IncomeRow where
  id : Int
  amount : Int
  date : Int
  description : Option String
  wallet_id : Int
deriving DecidableEq

/-- Row of the `wallet` table. -/
structure WalletRow where
  id : Int
  name : String
deriving DecidableEq

/-- Row of the `wallet_transfer` table. -/
structure WalletTransferRow where
  source_wallet_id : Int
  target_wallet_id : Int
  amount : Int
  date : Int
  description : Option String
deriving DecidableEq

/-- Row of the `category` table. -/
structure CategoryRow where
  id : Int
  name : String
  parent_category_id : Int
deriving DecidableEq

/-- Row of the `tag` table. -/
structure TagRow where
  id : Int
  name : String
  is_important : Bool
deriving DecidableEq

/-- The database state: the tables touched by the verified operations, plus
the id sequences backing `RETURNING id`. -/
structure Db where
  expense : List ExpenseRow
  expense_tag : List ExpenseTagRow
  income : List IncomeRow
  wallet : List WalletRow
  wallet_transfer : List WalletTransferRow
  category : List CategoryRow
  tag : List TagRow
  next_expense_id : Int
  next_income_id : Int
deriving DecidableEq

/-- Classification of the storage errors the repository layer surfaces
(sqlx `Error::RowNotFound` vs. database errors; see src/common/errors.rs). -/
inductive DbError where
  | rowNotFound
  | foreignKeyViolation
  | invalidStatement
deriving DecidableEq

/-- FK existence check against the `category` table. -/
def Db.categoryExists (db : Db) (cid : Int) : Bool :=
  db.category.any (fun c => c.id == cid)

/-- FK existence check against the `wallet` table. -/
def Db.walletExists (db : Db) (wid : Int) : Bool :=
  db.wallet.any (fun w => w.id == wid)

/-- FK existence check against the `tag` table. -/
def Db.tagExists (db : Db) (tid : Int) : Bool :=
  db.tag.any (fun t => t.id == tid)

/-- Existence check for an `expense` row with a given id. -/
def Db.expenseIdExists (db : Db) (id : Int) : Bool :=
  db.expense.any (fun r => r.id == id)

/-- The `SaveExpense` DTO (src/dtos/expense.rs): one expense payload of a
bulk insert or update, already validated by the deserializers. -/
structure SaveExpense where
  amount : Int
  date : Int
  description : Option String
  priority : Int
  category_id : Int
  wallet_id : Int
  tag_ids : List Int
deriving DecidableEq

/-- The expense row built from one payload by the column list of the
multi-row `INSERT INTO expense (amount, date, description, category_id,
wallet_id, priority)` (src/repositories/expense.rs, `insert_bulk`). -/
def mkExpenseRow (id : Int) (p : SaveExpense) : ExpenseRow :=
  { id := id, amount := p.amount, date := p.date, description := p.description,
    priority := p.priority, category_id := p.category_id, wallet_id := p.wallet_id }

/-- The ids PostgreSQL generates for the rows of one multi-row
`INSERT ... RETURNING id`: consecutive sequence values, returned in
insertion order (one statement, no concurrent interleaving within it). -/
def newExpenseIds (base : Int) : List SaveExpense → List Int
  | [] => []
  | _ :: rest => base :: newExpenseIds (base + 1) rest

/-- The multi-row `INSERT INTO expense ... RETURNING id` statement of
`insert_bulk` (src/repositories/expense.rs lines 189-212).  An empty
payload list makes `push_values` emit no value tuple, so the statement is
syntactically invalid; otherwise each row's category and wallet FKs are
checked. -/
def insertExpensesReturning (db : Db) (es : List SaveExpense) :
    Except DbError (Db × List Int) :=
  if es.isEmpty then .error .invalidStatement
  else if es.all (fun p => db.categoryExists p.category_id && db.walletExists p.wallet_id) then
    .ok ({ db with
            expense := db.expense ++ List.zipWith mkExpenseRow (newExpenseIds db.next_expense_id es) es,
            next_expense_id := db.next_expense_id + es.length },
         newExpenseIds db.next_expense_id es)
  else .error .foreignKeyViolation

/-- The `(expense_id, tag_id)` pair list built by the loop of `insert_bulk`
(src/repositories/expense.rs lines 219-231): the i-th returned id is paired
with each tag id of the i-th payload. -/
def expenseTagValues (ids : List Int) (es : List SaveExpense) : List (Int × Int) :=
  (List.zip ids es).flatMap (fun pr => pr.2.tag_ids.map (fun t => (pr.1, t)))

/-- The multi-row `INSERT INTO expense_tag (expense_id, tag_id)` statement:
syntactically invalid when no value tuple is pushed, otherwise each pair's
expense and tag FKs are checked. -/
def insertExpenseTags (db : Db) (pairs : List (Int × Int)) : Except DbError Db :=
  if pairs.isEmpty then .error .invalidStatement
  else if pairs.all (fun pr => db.expenseIdExists pr.1 && db.tagExists pr.2) then
    .ok { db with expense_tag := db.expense_tag ++ pairs.map (fun pr => ⟨pr.1, pr.2⟩) }
  else .error .foreignKeyViolation

/-- `Repository::insert_bulk` for expenses (src/repositories/expense.rs
lines 188-250): inside one transaction, insert all expense rows returning
their ids, build the association pairs, skip the association insert when the
pair list is empty, commit; any statement error rolls the transaction back
(the original database is returned). -/
def ExpenseRepository.insert_bulk (db : Db) (es : List SaveExpense) :
    Db × Except DbError Unit :=
  match insertExpensesReturning db es with
  | .error e => (db, .error e)
  | .ok (db1, ids) =>
      let pairs := expenseTagValues ids es
      if pairs.isEmpty then (db1, .ok ())
      else
        match insertExpenseTags db1 pairs with
        | .error e => (db, .error e)
        | .ok db2 => (db2, .ok ())

/-- `Repository::delete` for expenses (src/repositories/expense.rs lines
76-87): `DELETE FROM expense WHERE id = $1`; zero rows affected is reported
as `RowNotFound`.  (The schema files are not part of src/; the success path
is modelled as the plain row removal the statement performs.) -/
def ExpenseRepository.delete (db : Db) (id : Int) : Db × Except DbError Unit :=
  let rows_affected := (db.expense.filter (fun r => r.id == id)).length
  if rows_affected = 0 then (db, .error .rowNotFound)
  else ({ db with expense := db.expense.filter (fun r => !(r.id == id)) }, .ok ())

/-- The `UPDATE expense SET ... WHERE id = $7` statement of
`Repository::update` (src/repositories/expense.rs lines 255-276), returning
the updated database and the number of affected rows; the FK checks only
fire when a row is actually modified. -/
def updateExpenseStmt (db : Db) (id : Int) (e : SaveExpense) :
    Except DbError (Db × Nat) :=
  let n := (db.expense.filter (fun r => r.id == id)).length
  if n = 0 then .ok (db, 0)
  else if db.categoryExists e.category_id && db.walletExists e.wallet_id then
    .ok ({ db with expense := db.expense.map (fun r =>
            if r.id == id then
              { r with amount := e.amount, date := e.date, description := e.description,
                       category_id := e.category_id, wallet_id := e.wallet_id,
                       priority := e.priority }
            else r) }, n)
  else .error .foreignKeyViolation

/-- The `DELETE FROM expense_tag WHERE expense_id = $1` statement of
`Repository::update`. -/
def deleteExpenseTagsFor (db : Db) (id : Int) : Db :=
  { db with expense_tag := db.expense_tag.filter (fun r => !(r.expense_id == id)) }

/-- `Repository::update` for expenses (src/repositories/expense.rs lines
252-303): inside one transaction, update the row (explicit rollback and
`RowNotFound` when zero rows are affected), delete all tag associations of
the id, then run the multi-row association insert built from `tag_ids` —
the source pushes the values unconditionally, so an empty `tag_ids` list
produces the syntactically invalid empty `VALUES` statement.  Any statement
error rolls the transaction back. -/
def ExpenseRepository.update (db : Db) (id : Int) (e : SaveExpense) :
    Db × Except DbError Unit :=
  match updateExpenseStmt db id e with
  | .error err => (db, .error err)
  | .ok (db1, n) =>
      if n = 0 then (db, .error .rowNotFound)
      else
        match insertExpenseTags (deleteExpenseTagsFor db1 id) (e.tag_ids.map (fun t => (id, t))) with
        | .error err => (db, .error err)
        | .ok db3 => (db3, .ok ())

/-- The `SaveIncome` DTO (src/dtos/income.rs). -/
structure SaveIncome where
  amount : Int
  date : Int
  description : Option String
  wallet_id : Int
deriving DecidableEq

/-- The ids generated for a multi-row income insert (the statement has no
`RETURNING`, but the sequence still advances). -/
def newIncomeIds (base : Int) : List SaveIncome → List Int
  | [] => []
  | _ :: rest => base :: newIncomeIds (base + 1) rest

/-- The multi-row `INSERT INTO income (amount, date, description,
wallet_id)` statement of the income `Repository::insert_bulk`
(src/repositories/income.rs lines 143-153): empty payload list means an
empty `VALUES` clause (syntax error), otherwise wallet FKs are checked. -/
def insertIncomes (db : Db) (incomes : List SaveIncome) : Except DbError Db :=
  if incomes.isEmpty then .error .invalidStatement
  else if incomes.all (fun p => db.walletExists p.wallet_id) then
    .ok { db with
          income := db.income ++ List.zipWith
            (fun id p => IncomeRow.mk id p.amount p.date p.description p.wallet_id)
            (newIncomeIds db.next_income_id incomes) incomes,
          next_income_id := db.next_income_id + incomes.length }
  else .error .foreignKeyViolation

/-- `Repository::insert_bulk` for incomes (src/repositories/income.rs lines
142-160): one transaction around the single multi-row insert. -/
def IncomeRepository.insert_bulk (db : Db) (incomes : List SaveIncome) :
    Db × Except DbError Unit :=
  match insertIncomes db incomes with
  | .error e => (db, .error e)
  | .ok db1 => (db1, .ok ())

/-- The `SaveMoneyTransfer` DTO handed to the wallet repository
(src/dtos/wallet.rs). -/
structure SaveMoneyTransfer where
  source_wallet_id : Int
  target_wallet_id : Int
  amount : Int
  date : Int
  description : Option String
deriving DecidableEq

/-- The `SaveMoneyTransferFee` DTO: the fee to be inserted into the
`expense` table (src/dtos/wallet.rs). -/
structure SaveMoneyTransferFee where
  priority : Int
  wallet_id : Int
  category_id : Int
  amount : Int
  date : Int
  description : Option String
deriving DecidableEq

/-- The single-row `INSERT INTO wallet_transfer (source_wallet_id,
target_wallet_id, amount, date, description)` statement
(src/repositories/wallet.rs lines 64-74), with both wallet FKs checked. -/
def insertWalletTransfer (db : Db) (r : SaveMoneyTransfer) : Except DbError Db :=
  if db.walletExists r.source_wallet_id && db.walletExists r.target_wallet_id then
    .ok { db with wallet_transfer := db.wallet_transfer ++
          [⟨r.source_wallet_id, r.target_wallet_id, r.amount, r.date, r.description⟩] }
  else .error .foreignKeyViolation

/-- The single-row `INSERT INTO expense (category_id, priority, wallet_id,
amount, date, description)` statement for the transfer fee
(src/repositories/wallet.rs lines 90-102). -/
def insertFeeExpense (db : Db) (f : SaveMoneyTransferFee) : Except DbError Db :=
  if db.categoryExists f.category_id && db.walletExists f.wallet_id then
    .ok { db with
          expense := db.expense ++
            [{ id := db.next_expense_id, amount := f.amount, date := f.date,
               description := f.description, priority := f.priority,
               category_id := f.category_id, wallet_id := f.wallet_id }],
          next_expense_id := db.next_expense_id + 1 }
  else .error .foreignKeyViolation

/-- `Repository::insert_wallet_transfer_with_fee` (src/repositories/wallet.rs
lines 59-109; the handler side calls it `insert_money_transfer`): with no
fee record, the transfer insert runs as a single statement outside any
transaction; with a fee record, both inserts run inside one transaction and
any failure rolls the transfer insert back too. -/
def WalletRepository.insert_wallet_transfer_with_fee (db : Db)
    (wt : SaveMoneyTransfer) (fee : Option SaveMoneyTransferFee) :
    Db × Except DbError Unit :=
  match fee with
  | none =>
      match insertWalletTransfer db wt with
      | .error e => (db, .error e)
      | .ok db1 => (db1, .ok ())
  | some f =>
      match insertWalletTransfer db wt with
      | .error e => (db, .error e)
      | .ok db1 =>
          match insertFeeExpense db1 f with
          | .error e => (db, .error e)
          | .ok db2 => (db2, .ok ())

/-- The `SaveMoneyTransferRequest` body (src/dtos/wallet.rs): validation
makes `amount` and `fee` non-negative and the wallet ids positive. -/
structure SaveMoneyTransferRequest where
  source_wallet_id : Int
  target_wallet_id : Int
  amount : Int
  fee : Int
  date : Int
  description : Option String
deriving DecidableEq

/-- The `transfer` handler (src/handlers/wallet.rs lines 41-77): builds the
transfer record; when `fee` is non-zero it also builds the fee record with
priority 2 (low), the reserved fee category id 1, the source wallet, and
the description `"Wallet transfer fee: <original>"` when one was supplied;
then calls the repository. -/
def WalletHandler.transfer (db : Db) (body : SaveMoneyTransferRequest) :
    Db × Except DbError Unit :=
  let money_transfer : SaveMoneyTransfer :=
    { source_wallet_id := body.source_wallet_id,
      target_wallet_id := body.target_wallet_id,
      amount := body.amount, date := body.date, description := body.description }
  let save_fee : Option SaveMoneyTransferFee :=
    if body.fee = 0 then none
    else some
      { priority := 2, wallet_id := body.source_wallet_id, category_id := 1,
        amount := body.fee, date := body.date,
        description := body.description.map (fun d => "Wallet transfer fee: " ++ d) }
  WalletRepository.insert_wallet_transfer_with_fee db money_transfer save_fee

/-- The `GenerateSummaryRequest` DTO (src/dtos/summary.rs). -/
structure GenerateSummaryRequest where
  start_date : Int
  end_date : Int
  exclude_category_ids : List Int
deriving DecidableEq

/-- The `filtered_expense` CTE of `generate_raw` (src/repositories/summary.rs
lines 42-49): `expense JOIN category ON e.category_id = c.id` with
`e.date BETWEEN $1 AND $2 AND e.category_id != ALL($3)`.  The join is
modelled literally: each expense row appears once per matching category
row. -/
def filtered_expense (db : Db) (req : GenerateSummaryRequest) : List ExpenseRow :=
  (db.expense.flatMap (fun e =>
      (db.category.filter (fun c => c.id == e.category_id)).map (fun _ => e))).filter
    (fun e =>
      decide (req.start_date ≤ e.date) && decide (e.date ≤ req.end_date)
        && req.exclude_category_ids.all (fun c => !(e.category_id == c)))

/-- The `filtered_income` CTE of `generate_raw` (src/repositories/summary.rs
lines 50-54): income rows with `date BETWEEN $1 AND $2`, no category
concept. -/
def filtered_income (db : Db) (req : GenerateSummaryRequest) : List IncomeRow :=
  db.income.filter (fun i =>
    decide (req.start_date ≤ i.date) && decide (i.date ≤ req.end_date))

/-- The `total_expense` CTE: `COALESCE(SUM(fe.amount), 0)`; the sum of the
empty list is 0, matching the coalesce. -/
def summaryExpenseAmount (db : Db) (req : GenerateSummaryRequest) : Int :=
  ((filtered_expense db req).map (fun e => e.amount)).sum

/-- The `total_income` CTE: `COALESCE(SUM(amount), 0)`. -/
def summaryIncomeAmount (db : Db) (req : GenerateSummaryRequest) : Int :=
  ((filtered_income db req).map (fun i => i.amount)).sum

/-- The joined rows feeding the `wallet_summary` CTE
(src/repositories/summary.rs lines 100-108):
`filtered_income fi JOIN wallet w ON fi.wallet_id = w.id`, projected to
`(w.name, fi.amount)`. -/
def wallet_summary_rows (db : Db) (req : GenerateSummaryRequest) : List (String × Int) :=
  (filtered_income db req).flatMap (fun fi =>
    (db.wallet.filter (fun w => w.id == fi.wallet_id)).map (fun w => (w.name, fi.amount)))

/-- The `wallet_summary` CTE itself: `SELECT w.name, COALESCE(SUM(fi.amount),
0) ... GROUP BY w.name, fi.amount` — note the group key is the *pair*
(name, amount), exactly as written in the source.  SQL leaves the group
output order unspecified; the groups are produced in `List.dedup` key
order, which is immaterial because the consumer re-sorts by amount. -/
def wallet_summary (db : Db) (req : GenerateSummaryRequest) : List (String × Int) :=
  let rows := wallet_summary_rows db req
  rows.dedup.map (fun key =>
    (key.1, ((rows.filter (fun r => r == key)).map (fun r => r.2)).sum))

/-- The `income.group_summary.wallets` JSONB aggregation of `generate_raw`
(src/repositories/summary.rs lines 140-156): the `wallet_summary` entries
ordered by amount descending. -/
def income_wallets_list (db : Db) (req : GenerateSummaryRequest) : List (String × Int) :=
  List.insertionSort (fun a b => b.2 ≤ a.2) (wallet_summary db req)

/-- Modelled from the spec: the `wallets` group summary the specification
describes — totals grouped by wallet *name* alone, one entry per wallet
name that has income in the range (src spec section 4.4).  Used only to
state what the code diverges from. -/
def spec_wallet_totals (db : Db) (req : GenerateSummaryRequest) : List (String × Int) :=
  let rows := wallet_summary_rows db req
  (rows.map (fun r => r.1)).dedup.map (fun name =>
    (name, ((rows.filter (fun r => r.1 == name)).map (fun r => r.2)).sum))

/-- The raw pagination query parameters after deserialization
(src/dtos/mod.rs `Pagination`): each field is `None` when the query
parameter is absent or failed to parse (the fallback deserializer turns
parse errors into `None`). -/
structure Pagination where
  limit : Option Int
  offset : Option Int
deriving DecidableEq

/-- A raw query-string parameter before deserialization: absent, present
but unparseable, or a parsed numeric value. -/
inductive RawParam where
  | missing
  | invalid
  | value (n : Int)
deriving DecidableEq

/-- The fallback deserialization of one pagination parameter
(src/common/deserializer.rs `pagination_value_with_fallback`, used through
`#[serde(default)]`): absent or unparseable inputs become `None`, never an
error. -/
def paramToOption : RawParam → Option Int
  | .missing => none
  | .invalid => none
  | .value n => some n

/-- `Pagination::limit()` (src/dtos/mod.rs lines 28-36), parameterized by
`MAX_PAGINATION_LIMIT` whose defining module (src/constants.rs, declared in
main.rs) is not part of src/ — every statement below holds for any value of
the constant. -/
def Pagination.limitValue (maxLimit : Int) (p : Pagination) : Int :=
  let raw_limit := p.limit.getD maxLimit
  if raw_limit < 0 ∨ maxLimit < raw_limit then maxLimit else raw_limit

/-- `Pagination::offset()` (src/dtos/mod.rs lines 39-47). -/
def Pagination.offsetValue (p : Pagination) : Int :=
  let raw_offset := p.offset.getD 0
  if raw_offset < 0 then 0 else raw_offset

/-- SQL `OFFSET $o LIMIT $l` applied to an ordered result set. -/
def paginate (o l : Int) (rows : List α) : List α :=
  (rows.drop o.toNat).take l.toNat

/-- `UtilRepository::find_many_categories` (src/repositories/util.rs lines
90-110): `SELECT id, name FROM category ORDER BY name OFFSET $1 LIMIT $2`.
`ORDER BY name` carries no case folding; string comparison is modelled as
the codepoint order of the C collation. -/
def UtilRepository.find_many_categories (db : Db) (o l : Int) : List CategoryRow :=
  paginate o l (List.insertionSort (fun a b => a.name ≤ b.name) db.category)

/-- `UtilRepository::find_many_tags` (src/repositories/util.rs lines
151-174): `WHERE $1::BOOLEAN IS NULL OR is_important = $1 ORDER BY name
OFFSET $2 LIMIT $3` — the `ORDER BY` clause is on `name` only. -/
def UtilRepository.find_many_tags (db : Db) (mark : Option Bool) (o l : Int) :
    List TagRow :=
  paginate o l (List.insertionSort (fun a b => a.name ≤ b.name)
    (db.tag.filter (fun t =>
      match mark with
      | none => true
      | some b => t.is_important == b)))

/-- The wallet `Repository::find_many` (src/repositories/wallet.rs lines
41-57): `SELECT id, name FROM wallet ORDER BY LOWER(name) OFFSET $1 LIMIT
$2`. -/
def WalletRepository.find_many (db : Db) (o l : Int) : List WalletRow :=
  paginate o l (List.insertionSort (fun a b => a.name.toLower ≤ b.name.toLower) db.wallet)

/-- The ordering property the spec claims for tag listings: every tag with
`is_important = true` comes before every tag without it. -/
def importantFirst (l : List TagRow) : Prop :=
  l.Pairwise (fun a b => b.is_important = true → a.is_important = true)

instance : IsTotal CategoryRow (fun a b => a.name ≤ b.name) :=
  ⟨fun a b => le_total a.name b.name⟩

instance : IsTrans CategoryRow (fun a b => a.name ≤ b.name) :=
  ⟨fun _ _ _ h1 h2 => le_trans h1 h2⟩

instance : IsTotal TagRow (fun a b => a.name ≤ b.name) :=
  ⟨fun a b => le_total a.name b.name⟩

instance : IsTrans TagRow (fun a b => a.name ≤ b.name) :=
  ⟨fun _ _ _ h1 h2 => le_trans h1 h2⟩

instance : IsTotal WalletRow (fun a b => a.name.toLower ≤ b.name.toLower) :=
  ⟨fun a b => le_total a.name.toLower b.name.toLower⟩

instance : IsTrans WalletRow (fun a b => a.name.toLower ≤ b.name.toLower) :=
  ⟨fun _ _ _ h1 h2 => le_trans h1 h2⟩

/-- A small database used to instantiate the verified operations: two
wallets, the reserved fee category (id 1), one tag. -/
def dbWit : Db :=
  { expense := [], expense_tag := [], income := [],
    wallet := [⟨1, "Cash"⟩, ⟨2, "Bank"⟩], wallet_transfer := [],
    category := [⟨1, "Fee", 1⟩], tag := [⟨1, "vacation", false⟩],
    next_expense_id := 1, next_income_id := 1 }

/-- A two-payload expense batch: the first payload carries tag 1, the
second carries no tags. -/
def esWit : List SaveExpense :=
  [{ amount := 5, date := 1, description := none, priority := 0,
     category_id := 1, wallet_id := 1, tag_ids := [1] },
   { amount := 3, date := 2, description := some "x", priority := 1,
     category_id := 1, wallet_id := 2, tag_ids := [] }]

/-- An update payload whose `tag_ids` list is empty. -/
def payloadEmptyTags : SaveExpense :=
  { amount := 7, date := 3, description := none, priority := 2,
    category_id := 1, wallet_id := 1, tag_ids := [] }

/-- Database with two expenses (ids 5 and 6), each associated to tag 1. -/
def dbC6 : Db :=
  { expense := [⟨5, 10, 1, none, 0, 1, 1⟩, ⟨6, 20, 2, none, 1, 1, 1⟩],
    expense_tag := [⟨5, 1⟩, ⟨6, 1⟩], income := [],
    wallet := [⟨1, "Cash"⟩], wallet_transfer := [],
    category := [⟨1, "Food", 1⟩], tag := [⟨1, "t", false⟩],
    next_expense_id := 7, next_income_id := 1 }

/-- Database where one wallet ("A") has two income rows of different
amounts inside the summarised range. -/
def dbC5 : Db :=
  { expense := [], expense_tag := [],
    income := [⟨1, 10, 5, none, 1⟩, ⟨2, 20, 6, none, 1⟩],
    wallet := [⟨1, "A"⟩], wallet_transfer := [], category := [], tag := [],
    next_expense_id := 1, next_income_id := 3 }

/-- Summary request covering days 0 to 10 with no exclusions. -/
def reqC5 : GenerateSummaryRequest :=
  { start_date := 0, end_date := 10, exclude_category_ids := [] }

/-- Database for the summary witness: three expenses (one out of range,
one in an excluded category), two incomes (one out of range). -/
def dbC4 : Db :=
  { expense := [⟨1, 100, 5, none, 0, 2, 1⟩, ⟨2, 50, 5, none, 1, 3, 1⟩,
                ⟨3, 70, 20, none, 1, 2, 1⟩],
    expense_tag := [], income := [⟨1, 40, 5, none, 1⟩, ⟨2, 60, 30, none, 1⟩],
    wallet := [⟨1, "Cash"⟩], wallet_transfer := [],
    category := [⟨2, "Food", 1⟩, ⟨3, "Rent", 1⟩], tag := [],
    next_expense_id := 4, next_income_id := 3 }

/-- Summary request for the witness: days 0 to 10, category 3 excluded. -/
def reqC4 : GenerateSummaryRequest :=
  { start_date := 0, end_date := 10, exclude_category_ids := [3] }

/-- Database whose tag table holds a non-important tag whose name sorts
before an important one, and whose category table holds mixed-case names
("B", "a") on which raw codepoint order and case-insensitive order
disagree. -/
def dbC9 : Db :=
  { expense := [], expense_tag := [], income := [], wallet := [],
    wallet_transfer := [], category := [⟨1, "B", 1⟩, ⟨2, "a", 1⟩],
    tag := [⟨1, "alpha", false⟩, ⟨2, "beta", true⟩],
    next_expense_id := 1, next_income_id := 1 }

/-- Database whose tag table holds mixed-case names ("B", "a") of equal
importance, on which raw codepoint order and case-insensitive order
disagree. -/
def dbC9b : Db :=
  { expense := [], expense_tag := [], income := [], wallet := [],
    wallet_transfer := [], category := [],
    tag := [⟨3, "B", false⟩, ⟨4, "a", false⟩],
    next_expense_id := 1, next_income_id := 1 }

/-- Modelled from the spec: "case-insensitive name" comparison — names
compared after per-character lowercasing.  Stated over the character lists
so that it evaluates on concrete inputs. -/
def caseInsensitiveLE (a b : String) : Prop :=
  a.toList.map Char.toLower ≤ b.toList.map Char.toLower

/-- Modelled from the spec: a name list in case-insensitive order. -/
def caseInsensitiveOrdered (l : List String) : Prop :=
  l.Pairwise caseInsensitiveLE

/-- Transfer request with a zero fee. -/
def bodyFee0 : SaveMoneyTransferRequest :=
  { source_wallet_id := 1, target_wallet_id := 2, amount := 1000, fee := 0,
    date := 1, description := some "move" }

/-- Transfer request with a positive fee and a description. -/
def bodyFee10 : SaveMoneyTransferRequest :=
  { source_wallet_id := 1, target_wallet_id := 2, amount := 1000, fee := 10,
    date := 1, description := some "move" }

-- Theorems

/-- Case analysis of the `expense_tag` multi-row insert: it errors, or it
appends exactly the given pairs. -/
theorem insertExpenseTags_cases (db : Db) (pairs : List (Int × Int)) :
    (∃ e, insertExpenseTags db pairs = Except.error e) ∨
    insertExpenseTags db pairs =
      Except.ok
        { db with
          expense_tag := db.expense_tag ++ pairs.map (fun pr => ExpenseTagRow.mk pr.1 pr.2) } := by
  unfold insertExpenseTags
  split_ifs <;> simp

/-- Case analysis of the expense `insert_bulk`: either every statement
succeeded and both tables received exactly the batch-derived rows, or the
transaction rolled back and the database is the pre-call one. -/
theorem insert_bulk_cases (db : Db) (es : List SaveExpense) :
    ((ExpenseRepository.insert_bulk db es).1 = db ∧
      ∃ e, (ExpenseRepository.insert_bulk db es).2 = Except.error e) ∨
    ExpenseRepository.insert_bulk db es =
      ({ db with
          expense := db.expense ++
            List.zipWith mkExpenseRow (newExpenseIds db.next_expense_id es) es,
          expense_tag := db.expense_tag ++
            (expenseTagValues (newExpenseIds db.next_expense_id es) es).map
              (fun pr => ExpenseTagRow.mk pr.1 pr.2),
          next_expense_id := db.next_expense_id + es.length }, Except.ok ()) := by
  by_cases h1 : es.isEmpty
  · refine Or.inl ?_
    simp [ExpenseRepository.insert_bulk, insertExpensesReturning, h1]
  by_cases h2 : es.all (fun p => db.categoryExists p.category_id && db.walletExists p.wallet_id)
  · by_cases h3 : (expenseTagValues (newExpenseIds db.next_expense_id es) es).isEmpty
    · refine Or.inr ?_
      rw [List.isEmpty_iff] at h3
      simp [ExpenseRepository.insert_bulk, insertExpensesReturning, h1, h2, h3]
    · rcases insertExpenseTags_cases
          { db with
            expense := db.expense ++
              List.zipWith mkExpenseRow (newExpenseIds db.next_expense_id es) es,
            next_expense_id := db.next_expense_id + es.length }
          (expenseTagValues (newExpenseIds db.next_expense_id es) es) with ⟨e, he⟩ | hok
      · refine Or.inl ?_
        simp [ExpenseRepository.insert_bulk, insertExpensesReturning, h1, h2, h3, he]
      · refine Or.inr ?_
        simp [ExpenseRepository.insert_bulk, insertExpensesReturning, h1, h2, h3, hok]
  · refine Or.inl ?_
    simp [ExpenseRepository.insert_bulk, insertExpensesReturning, h1, h2]

/-- Claim C1: a bulk expense insert either commits all expense rows
together with every `(expense_id, tag_id)` pair derived from the batch, or
commits nothing and leaves the database (in particular the `expense` and
`expense_tag` tables) in its pre-call state. -/
theorem insert_bulk_atomicity (db : Db) (es : List SaveExpense) :
    ((ExpenseRepository.insert_bulk db es).1 = db ∧
      ∃ e, (ExpenseRepository.insert_bulk db es).2 = Except.error e) ∨
    ExpenseRepository.insert_bulk db es =
      ({ db with
          expense := db.expense ++
            List.zipWith mkExpenseRow (newExpenseIds db.next_expense_id es) es,
          expense_tag := db.expense_tag ++
            (expenseTagValues (newExpenseIds db.next_expense_id es) es).map
              (fun pr => ExpenseTagRow.mk pr.1 pr.2),
          next_expense_id := db.next_expense_id + es.length }, Except.ok ()) :=
  insert_bulk_cases db es

/-- Unfolding of the pair list over a cons cell. -/
theorem expenseTagValues_cons (b : Int) (ids : List Int) (p : SaveExpense)
    (rest : List SaveExpense) :
    expenseTagValues (b :: ids) (p :: rest) =
      p.tag_ids.map (fun t => (b, t)) ++ expenseTagValues ids rest := by
  simp [expenseTagValues]

/-- The returned id list has one id per payload. -/
theorem newExpenseIds_length (base : Int) (es : List SaveExpense) :
    (newExpenseIds base es).length = es.length := by
  induction es generalizing base with
  | nil => rfl
  | cons p rest ih => simp [newExpenseIds, ih]

/-- The i-th returned id is `base + i`: ids come back in insertion order. -/
theorem newExpenseIds_get (base : Int) (es : List SaveExpense) (i : Nat)
    (h : i < (newExpenseIds base es).length) :
    (newExpenseIds base es).get ⟨i, h⟩ = base + i := by
  induction es generalizing base i with
  | nil => simp [newExpenseIds] at h
  | cons p rest ih =>
      cases i with
      | zero => simp [newExpenseIds]
      | succ j =>
          have hj : j < (newExpenseIds (base + 1) rest).length := by
            simpa [newExpenseIds] using h
          have := ih (base + 1) j hj
          simp only [newExpenseIds, List.get_cons_succ, this]
          omega

/-- Every pair built from ids starting at `base` has its first component at
least `base`. -/
theorem expenseTagValues_fst_ge (base : Int) (es : List SaveExpense) (pr : Int × Int)
    (h : pr ∈ expenseTagValues (newExpenseIds base es) es) : base ≤ pr.1 := by
  induction es generalizing base with
  | nil => simp [expenseTagValues, newExpenseIds] at h
  | cons p rest ih =>
      rw [newExpenseIds, expenseTagValues_cons, List.mem_append] at h
      rcases h with h | h
      · rcases List.mem_map.mp h with ⟨t, _, rfl⟩
        exact le_refl base
      · have := ih (base + 1) h
        omega

/-- The pairs whose expense id is the i-th returned id carry exactly the
tag ids of the i-th payload, in order. -/
theorem expenseTagValues_filter_eq (base : Int) (es : List SaveExpense) (i : Nat)
    (hi : i < es.length) :
    ((expenseTagValues (newExpenseIds base es) es).filter
        (fun pr => pr.1 == base + (i : Int))).map (fun pr => pr.2) =
      (es.get ⟨i, hi⟩).tag_ids := by
  induction es generalizing base i with
  | nil => exact absurd hi (Nat.not_lt_zero i)
  | cons p rest ih =>
      rw [newExpenseIds, expenseTagValues_cons, List.filter_append, List.map_append]
      cases i with
      | zero =>
          have h1 : (p.tag_ids.map (fun t => (base, t))).filter
              (fun pr => pr.1 == base + ((0 : Nat) : Int)) =
              p.tag_ids.map (fun t => (base, t)) := by
            apply List.filter_eq_self.mpr
            intro a ha
            rcases List.mem_map.mp ha with ⟨t, _, rfl⟩
            simp
          have h2 : (expenseTagValues (newExpenseIds (base + 1) rest) rest).filter
              (fun pr => pr.1 == base + ((0 : Nat) : Int)) = [] := by
            apply List.filter_eq_nil_iff.mpr
            intro a ha
            have := expenseTagValues_fst_ge (base + 1) rest a ha
            simp only [beq_iff_eq]
            omega
          rw [h1, h2]
          simp [List.map_map, Function.comp]
      | succ j =>
          have h1 : (p.tag_ids.map (fun t => (base, t))).filter
              (fun pr => pr.1 == base + ((j + 1 : Nat) : Int)) = [] := by
            apply List.filter_eq_nil_iff.mpr
            intro a ha
            rcases List.mem_map.mp ha with ⟨t, _, rfl⟩
            simp only [beq_iff_eq]
            omega
          have hj : j < rest.length := Nat.lt_of_succ_lt_succ hi
          have h2 := ih (base + 1) j hj
          have hkey : base + ((j + 1 : Nat) : Int) = (base + 1) + (j : Int) := by
            push_cast
            ring
          rw [h1, hkey, h2]
          simp

/-- Claim C2: the i-th id returned by the multi-row `INSERT` is
`next_expense_id + i` (returned-id order matches input order), the pair
list associates that id with exactly the tag ids of the i-th payload, and
on success `expense_tag` receives exactly those pairs — each inserted
expense carries precisely its own tags. -/
theorem insert_bulk_tag_attribution (db : Db) (es : List SaveExpense) (i : Nat)
    (hi : i < es.length)
    (hlen : i < (newExpenseIds db.next_expense_id es).length) :
    (newExpenseIds db.next_expense_id es).get ⟨i, hlen⟩ = db.next_expense_id + i
  ∧ ((expenseTagValues (newExpenseIds db.next_expense_id es) es).filter
      (fun pr => pr.1 == db.next_expense_id + (i : Int))).map (fun pr => pr.2) =
        (es.get ⟨i, hi⟩).tag_ids
  ∧ ((ExpenseRepository.insert_bulk db es).2 = Except.ok () →
      (ExpenseRepository.insert_bulk db es).1.expense_tag =
        db.expense_tag ++
          (expenseTagValues (newExpenseIds db.next_expense_id es) es).map
            (fun pr => ExpenseTagRow.mk pr.1 pr.2)) := by
  refine ⟨newExpenseIds_get db.next_expense_id es i hlen,
    expenseTagValues_filter_eq db.next_expense_id es i hi, ?_⟩
  intro hok
  rcases insert_bulk_cases db es with ⟨_, e, he⟩ | hsucc
  · rw [hok] at he
    exact absurd he (by simp)
  · rw [hsucc]

/-- Witness for claim C2 at a concrete batch: two payloads with tag lists
`[[1], []]`; the pairs for the first returned id are exactly `[1]`, and on
success the association table receives exactly the batch pairs. -/
theorem insert_bulk_tag_attribution_witness :
    ((expenseTagValues (newExpenseIds dbWit.next_expense_id esWit) esWit).filter
      (fun pr => pr.1 == dbWit.next_expense_id + ((0 : Nat) : Int))).map (fun pr => pr.2) =
        (esWit.get ⟨0, by decide⟩).tag_ids
  ∧ (ExpenseRepository.insert_bulk dbWit esWit).1.expense_tag =
      dbWit.expense_tag ++
        (expenseTagValues (newExpenseIds dbWit.next_expense_id esWit) esWit).map
          (fun pr => ExpenseTagRow.mk pr.1 pr.2) :=
  ⟨(insert_bulk_tag_attribution dbWit esWit 0 (by decide) (by decide)).2.1,
   (insert_bulk_tag_attribution dbWit esWit 0 (by decide) (by decide)).2.2 rfl⟩

/-- Claim C10: a bulk insert with an empty payload list never succeeds as a
no-op — the generated multi-row `INSERT` has no value rows, the statement
errors and no rows are inserted (for both the expense and the income
repositories). -/
theorem insert_bulk_empty_rejected (db : Db) :
    ExpenseRepository.insert_bulk db [] = (db, Except.error DbError.invalidStatement)
  ∧ IncomeRepository.insert_bulk db [] = (db, Except.error DbError.invalidStatement) :=
  ⟨rfl, rfl⟩

/-- Claim C3: a transfer with `fee = 0` creates exactly one
`wallet_transfer` row and no expense row (single-statement path); with
`fee > 0` it atomically creates the transfer row and exactly one expense
row against the source wallet with priority 2 (low), the reserved fee
category id 1, and description `"Wallet transfer fee: <original>"` when a
description was supplied, else none; any failure leaves the database in
its pre-call state (the fee failure rolls the transfer insert back too). -/
theorem transfer_fee_semantics (db : Db) (body : SaveMoneyTransferRequest) :
    (body.fee = 0 → (WalletHandler.transfer db body).2 = Except.ok () →
      (WalletHandler.transfer db body).1 =
        { db with wallet_transfer := db.wallet_transfer ++
            [⟨body.source_wallet_id, body.target_wallet_id, body.amount,
              body.date, body.description⟩] })
  ∧ (0 < body.fee → (WalletHandler.transfer db body).2 = Except.ok () →
      (WalletHandler.transfer db body).1 =
        { db with
            wallet_transfer := db.wallet_transfer ++
              [⟨body.source_wallet_id, body.target_wallet_id, body.amount,
                body.date, body.description⟩],
            expense := db.expense ++
              [{ id := db.next_expense_id, amount := body.fee, date := body.date,
                 description := body.description.map (fun d => "Wallet transfer fee: " ++ d),
                 priority := 2, category_id := 1,
                 wallet_id := body.source_wallet_id }],
            next_expense_id := db.next_expense_id + 1 })
  ∧ (∀ err, (WalletHandler.transfer db body).2 = Except.error err →
      (WalletHandler.transfer db body).1 = db) := by
  by_cases hfee : body.fee = 0
  · by_cases hW : db.walletExists body.source_wallet_id && db.walletExists body.target_wallet_id
    · refine ⟨fun _ _ => ?_, fun hpos _ => absurd hfee (by omega), fun err herr => ?_⟩
      · simp [WalletHandler.transfer, WalletRepository.insert_wallet_transfer_with_fee,
          insertWalletTransfer, hfee, hW]
      · exact absurd herr (by
          simp [WalletHandler.transfer, WalletRepository.insert_wallet_transfer_with_fee,
            insertWalletTransfer, hfee, hW])
    · refine ⟨fun _ hok => ?_, fun hpos _ => absurd hfee (by omega), fun err herr => ?_⟩
      · exact absurd hok (by
          simp [WalletHandler.transfer, WalletRepository.insert_wallet_transfer_with_fee,
            insertWalletTransfer, hfee, hW])
      · simp [WalletHandler.transfer, WalletRepository.insert_wallet_transfer_with_fee,
          insertWalletTransfer, hfee, hW]
  · by_cases hW : db.walletExists body.source_wallet_id && db.walletExists body.target_wallet_id
    · by_cases hF : Db.categoryExists
          { db with wallet_transfer := db.wallet_transfer ++
              [⟨body.source_wallet_id, body.target_wallet_id, body.amount,
                body.date, body.description⟩] } 1 &&
          Db.walletExists
          { db with wallet_transfer := db.wallet_transfer ++
              [⟨body.source_wallet_id, body.target_wallet_id, body.amount,
                body.date, body.description⟩] } body.source_wallet_id
      · refine ⟨fun h0 => absurd h0 hfee, fun _ _ => ?_, fun err herr => ?_⟩
        · simp [WalletHandler.transfer, WalletRepository.insert_wallet_transfer_with_fee,
            insertWalletTransfer, insertFeeExpense, hfee, hW, hF]
        · exact absurd herr (by
            simp [WalletHandler.transfer, WalletRepository.insert_wallet_transfer_with_fee,
              insertWalletTransfer, insertFeeExpense, hfee, hW, hF])
      · refine ⟨fun h0 => absurd h0 hfee, fun _ hok => ?_, fun err herr => ?_⟩
        · exact absurd hok (by
            simp [WalletHandler.transfer, WalletRepository.insert_wallet_transfer_with_fee,
              insertWalletTransfer, insertFeeExpense, hfee, hW, hF])
        · simp [WalletHandler.transfer, WalletRepository.insert_wallet_transfer_with_fee,
            insertWalletTransfer, insertFeeExpense, hfee, hW, hF]
    · refine ⟨fun h0 => absurd h0 hfee, fun _ hok => ?_, fun err herr => ?_⟩
      · exact absurd hok (by
          simp [WalletHandler.transfer, WalletRepository.insert_wallet_transfer_with_fee,
            insertWalletTransfer, hfee, hW])
      · simp [WalletHandler.transfer, WalletRepository.insert_wallet_transfer_with_fee,
          insertWalletTransfer, hfee, hW]

/-- Witness for claim C3: in a database with wallets 1 and 2 and the fee
category, a zero-fee transfer appends only the transfer row, and a fee-10
transfer with description "move" also appends the priority-2 fee expense
with description "Wallet transfer fee: move". -/
theorem transfer_fee_semantics_witness :
    (WalletHandler.transfer dbWit bodyFee0).1 =
      { dbWit with wallet_transfer := dbWit.wallet_transfer ++
          [⟨bodyFee0.source_wallet_id, bodyFee0.target_wallet_id, bodyFee0.amount,
            bodyFee0.date, bodyFee0.description⟩] }
  ∧ (WalletHandler.transfer dbWit bodyFee10).1 =
      { dbWit with
          wallet_transfer := dbWit.wallet_transfer ++
            [⟨bodyFee10.source_wallet_id, bodyFee10.target_wallet_id, bodyFee10.amount,
              bodyFee10.date, bodyFee10.description⟩],
          expense := dbWit.expense ++
            [{ id := dbWit.next_expense_id, amount := bodyFee10.fee, date := bodyFee10.date,
               description := bodyFee10.description.map (fun d => "Wallet transfer fee: " ++ d),
               priority := 2, category_id := 1,
               wallet_id := bodyFee10.source_wallet_id }],
          next_expense_id := dbWit.next_expense_id + 1 } :=
  ⟨(transfer_fee_semantics dbWit bodyFee0).1 rfl rfl,
   (transfer_fee_semantics dbWit bodyFee10).2.1 (by decide) rfl⟩

/-- The association insert never produces `RowNotFound`: its failures are
statement or constraint errors. -/
theorem insertExpenseTags_ne_rowNotFound (db : Db) (pairs : List (Int × Int)) :
    insertExpenseTags db pairs ≠ Except.error DbError.rowNotFound := by
  unfold insertExpenseTags
  split_ifs <;> simp

/-- The `UPDATE expense` statement either fails with a constraint error or
reports the number of rows matching the id. -/
theorem updateExpenseStmt_cases (db : Db) (id : Int) (e : SaveExpense) :
    updateExpenseStmt db id e = Except.error DbError.foreignKeyViolation ∨
    ∃ db1, updateExpenseStmt db id e =
      Except.ok (db1, (db.expense.filter (fun r => r.id == id)).length) := by
  by_cases h1 : (db.expense.filter (fun r => r.id == id)).length = 0
  · refine Or.inr ⟨db, ?_⟩
    simp [updateExpenseStmt, h1]
  · by_cases h2 : db.categoryExists e.category_id && db.walletExists e.wallet_id
    · refine Or.inr ⟨{ db with expense := db.expense.map (fun r =>
          if r.id == id then
            { r with amount := e.amount, date := e.date, description := e.description,
                     category_id := e.category_id, wallet_id := e.wallet_id,
                     priority := e.priority }
          else r) }, ?_⟩
      simp [updateExpenseStmt, h1, h2]
    · refine Or.inl ?_
      simp [updateExpenseStmt, h1, h2]

/-- When the update statement reports zero affected rows, the repository
rolls back and returns `RowNotFound` with the database untouched. -/
theorem update_eq_notFound (db : Db) (id : Int) (e : SaveExpense)
    (h : (db.expense.filter (fun r => r.id == id)).length = 0) :
    ExpenseRepository.update db id e = (db, Except.error DbError.rowNotFound) := by
  simp [ExpenseRepository.update, updateExpenseStmt, h]

/-- When some row matches the id, the update never returns `RowNotFound`. -/
theorem update_found_not_rowNotFound (db : Db) (id : Int) (e : SaveExpense)
    (h : ¬ (db.expense.filter (fun r => r.id == id)).length = 0) :
    (ExpenseRepository.update db id e).2 ≠ Except.error DbError.rowNotFound := by
  rcases updateExpenseStmt_cases db id e with hstmt | ⟨db1, hstmt⟩
  · simp [ExpenseRepository.update, hstmt]
  · cases hres : insertExpenseTags (deleteExpenseTagsFor db1 id)
        (e.tag_ids.map (fun t => (id, t))) with
    | error err =>
        have hne : err ≠ DbError.rowNotFound := by
          intro hr
          rw [hr] at hres
          exact insertExpenseTags_ne_rowNotFound _ _ hres
        simp [ExpenseRepository.update, hstmt, h, hres, hne]
    | ok db3 => simp [ExpenseRepository.update, hstmt, h, hres]

/-- Every error outcome of the update leaves the database untouched (the
transaction is rolled back before the error is returned). -/
theorem update_error_rollback (db : Db) (id : Int) (e : SaveExpense) (err : DbError)
    (h : (ExpenseRepository.update db id e).2 = Except.error err) :
    (ExpenseRepository.update db id e).1 = db := by
  rcases updateExpenseStmt_cases db id e with hstmt | ⟨db1, hstmt⟩
  · simp [ExpenseRepository.update, hstmt]
  · by_cases hn : (db.expense.filter (fun r => r.id == id)).length = 0
    · simp [ExpenseRepository.update, hstmt, hn]
    · cases hres : insertExpenseTags (deleteExpenseTagsFor db1 id)
          (e.tag_ids.map (fun t => (id, t))) with
      | error e3 => simp [ExpenseRepository.update, hstmt, hn, hres]
      | ok db3 =>
          rw [ExpenseRepository.update] at h
          simp [hstmt, hn, hres] at h

/-- Claim C7: `delete(id)` and `update(id, payload)` on the expense
repository return `RowNotFound` exactly when no row with that id exists,
and in that case the database — the expense table and all tag
associations — is left completely unmodified. -/
theorem not_found_semantics (db : Db) (id : Int) (e : SaveExpense) :
    ((ExpenseRepository.delete db id).2 = Except.error DbError.rowNotFound ↔
      ¬ ∃ r ∈ db.expense, r.id = id)
  ∧ ((ExpenseRepository.delete db id).2 = Except.error DbError.rowNotFound →
      (ExpenseRepository.delete db id).1 = db)
  ∧ ((ExpenseRepository.update db id e).2 = Except.error DbError.rowNotFound ↔
      ¬ ∃ r ∈ db.expense, r.id = id)
  ∧ ((ExpenseRepository.update db id e).2 = Except.error DbError.rowNotFound →
      (ExpenseRepository.update db id e).1 = db) := by
  have hkey : ((db.expense.filter (fun r => r.id == id)).length = 0) ↔
      ¬ ∃ r ∈ db.expense, r.id = id := by
    rw [List.length_eq_zero, List.filter_eq_nil_iff]
    simp [beq_iff_eq]
  by_cases h : (db.expense.filter (fun r => r.id == id)).length = 0
  · refine ⟨⟨fun _ => hkey.mp h, fun _ => by simp [ExpenseRepository.delete, h]⟩,
      fun _ => by simp [ExpenseRepository.delete, h],
      ⟨fun _ => hkey.mp h, fun _ => by rw [update_eq_notFound db id e h]⟩,
      fun _ => by rw [update_eq_notFound db id e h]⟩
  · have hmem : ∃ r ∈ db.expense, r.id = id := by
      by_contra hno
      exact h (hkey.mpr hno)
    refine ⟨⟨fun habs => ?_, fun hno => absurd hmem hno⟩,
      fun habs => ?_,
      ⟨fun habs => absurd habs (update_found_not_rowNotFound db id e h),
        fun hno => absurd hmem hno⟩,
      fun habs => update_error_rollback db id e DbError.rowNotFound habs⟩
    · exact absurd habs (by simp [ExpenseRepository.delete, h])
    · exact absurd habs (by simp [ExpenseRepository.delete, h])

/-- Witness for claim C7: on a database whose expense ids are 5 and 6,
deleting and updating id 99 both report `RowNotFound` and change
nothing. -/
theorem not_found_semantics_witness :
    (ExpenseRepository.delete dbC6 99).1 = dbC6
  ∧ (ExpenseRepository.update dbC6 99 payloadEmptyTags).1 = dbC6
  ∧ ¬ ∃ r ∈ dbC6.expense, r.id = 99 :=
  ⟨(not_found_semantics dbC6 99 payloadEmptyTags).2.1 rfl,
   (not_found_semantics dbC6 99 payloadEmptyTags).2.2.2 rfl,
   (not_found_semantics dbC6 99 payloadEmptyTags).1.mp rfl⟩

/-- Claim C6 (divergence witness): on a database where expense id 5 exists
and has one tag association, updating id 5 with an empty `tag_ids` list
does not succeed: the unconditional `push_values` over the empty list
yields the invalid empty `VALUES` statement, the transaction rolls back,
and the association rows (for id 5 and everyone else) are left exactly as
before — the spec says the empty insert is skipped and the call succeeds
with zero rows for id 5. -/
theorem update_empty_tags_errors :
    ExpenseRepository.update dbC6 5 payloadEmptyTags =
      (dbC6, Except.error DbError.invalidStatement)
  ∧ (∃ r ∈ dbC6.expense, r.id = 5) :=
  ⟨rfl, ⟨⟨5, 10, 1, none, 0, 1, 1⟩, by decide, rfl⟩⟩

/-- Claim C8: the pagination resolver never errors: `limit` resolves to the
parsed value when `0 ≤ value ≤ MAX_PAGINATION_LIMIT` and to the maximum
when the input is absent, unparseable, negative, or above the maximum;
`offset` resolves to the parsed value when non-negative and to 0 when
absent, unparseable, or negative.  Stated for every value of
`MAX_PAGINATION_LIMIT`, whose defining module is not in src/. -/
theorem pagination_resolution (maxLimit : Int) (o : Option Int) :
    (∀ n : Int, 0 ≤ n → n ≤ maxLimit →
      Pagination.limitValue maxLimit { limit := paramToOption (RawParam.value n), offset := o } = n)
  ∧ Pagination.limitValue maxLimit { limit := paramToOption RawParam.missing, offset := o } = maxLimit
  ∧ Pagination.limitValue maxLimit { limit := paramToOption RawParam.invalid, offset := o } = maxLimit
  ∧ (∀ n : Int, n < 0 →
      Pagination.limitValue maxLimit { limit := paramToOption (RawParam.value n), offset := o } = maxLimit)
  ∧ (∀ n : Int, maxLimit < n →
      Pagination.limitValue maxLimit { limit := paramToOption (RawParam.value n), offset := o } = maxLimit)
  ∧ (∀ n : Int, 0 ≤ n →
      Pagination.offsetValue { limit := o, offset := paramToOption (RawParam.value n) } = n)
  ∧ Pagination.offsetValue { limit := o, offset := paramToOption RawParam.missing } = 0
  ∧ Pagination.offsetValue { limit := o, offset := paramToOption RawParam.invalid } = 0
  ∧ (∀ n : Int, n < 0 →
      Pagination.offsetValue { limit := o, offset := paramToOption (RawParam.value n) } = 0) := by
  refine ⟨fun n h0 h1 => ?_, ?_, ?_, fun n h => ?_, fun n h => ?_, fun n h => ?_, ?_, ?_,
    fun n h => ?_⟩ <;>
    simp only [Pagination.limitValue, Pagination.offsetValue, paramToOption,
      Option.getD_some, Option.getD_none] <;>
    first
      | (rw [if_neg (by omega)])
      | (rw [if_pos (by omega)])
      | (split_ifs <;> omega)

/-- Witness for claim C8 with `MAX_PAGINATION_LIMIT = 100`: limit 50 passes
through, absent limit and limits -5 and 110 clamp to 100, offset -3
clamps to 0. -/
theorem pagination_resolution_witness :
    Pagination.limitValue 100 { limit := paramToOption (RawParam.value 50), offset := none } = 50
  ∧ Pagination.limitValue 100 { limit := paramToOption RawParam.missing, offset := none } = 100
  ∧ Pagination.limitValue 100 { limit := paramToOption (RawParam.value (-5)), offset := none } = 100
  ∧ Pagination.limitValue 100 { limit := paramToOption (RawParam.value 110), offset := none } = 100
  ∧ Pagination.offsetValue { limit := none, offset := paramToOption (RawParam.value (-3)) } = 0 :=
  ⟨(pagination_resolution 100 none).1 50 (by decide) (by decide),
   (pagination_resolution 100 none).2.1,
   (pagination_resolution 100 none).2.2.2.1 (-5) (by decide),
   (pagination_resolution 100 none).2.2.2.2.1 110 (by decide),
   (pagination_resolution 100 none).2.2.2.2.2.2.2.2 (-3) (by decide)⟩

/-- A list of length one mapped to a constant is that singleton constant. -/
theorem map_const_singleton {α β : Type} (l : List α) (e : β) (h : l.length = 1) :
    l.map (fun _ => e) = [e] := by
  cases l with
  | nil => simp at h
  | cons a t =>
      cases t with
      | nil => rfl
      | cons b t2 => simp at h

/-- Under the primary key of `category` and a satisfied FK, exactly one
category row matches a referenced id. -/
theorem category_match_count (cat : List CategoryRow)
    (hnd : (cat.map (fun c => c.id)).Nodup) (x : Int)
    (hx : ∃ c ∈ cat, c.id = x) :
    (cat.filter (fun c => c.id == x)).length = 1 := by
  have hmem : x ∈ cat.map (fun c => c.id) := by
    rcases hx with ⟨c, hc, hcx⟩
    exact List.mem_map.mpr ⟨c, hc, hcx⟩
  have hcount : (cat.map (fun c => c.id)).count x = 1 :=
    List.count_eq_one_of_mem hnd hmem
  calc (cat.filter (fun c => c.id == x)).length
      = cat.countP (fun c => c.id == x) := by rw [List.countP_eq_length_filter]
    _ = (cat.map (fun c => c.id)).count x := by
        rw [List.count, List.countP_map]
        rfl
    _ = 1 := hcount

/-- The inner join of `expense` with `category` on the category FK returns
each expense row exactly once when the FK is satisfied and category ids
form a key. -/
theorem join_eq_self (cat : List CategoryRow)
    (hnd : (cat.map (fun c => c.id)).Nodup) (l : List ExpenseRow)
    (hfk : ∀ r ∈ l, ∃ c ∈ cat, c.id = r.category_id) :
    l.flatMap (fun e => (cat.filter (fun c => c.id == e.category_id)).map (fun _ => e)) = l := by
  induction l with
  | nil => rfl
  | cons a t ih =>
      rw [List.flatMap_cons]
      rw [map_const_singleton _ a
        (category_match_count cat hnd a.category_id (hfk a (List.mem_cons_self a t)))]
      rw [ih (fun r hr => hfk r (List.mem_cons_of_mem a hr))]
      rfl

/-- The `!= ALL(array)` predicate of the summary query equals plain
non-membership. -/
theorem all_ne_eq_not_mem (excl : List Int) (x : Int) :
    excl.all (fun c => !(x == c)) = decide (x ∉ excl) := by
  rw [Bool.eq_iff_iff]
  simp only [List.all_eq_true, Bool.not_eq_true', beq_eq_false_iff_ne, ne_eq,
    decide_eq_true_eq]
  constructor
  · intro h hx
    exact h x hx rfl
  · intro h c hc hxc
    exact h (hxc ▸ hc)

/-- Claim C4: the summary's `expense.amount` is the sum of the amounts of
expense rows whose date lies in `[start_date, end_date]` (inclusive on both
ends) and whose `category_id` is not in `exclude_category_ids`;
`income.amount` is the sum of income rows in the same inclusive range with
no category exclusion; each sum is 0 when no rows match.  Stated under the
schema invariants of the `category` table (primary key, satisfied expense
FK). -/
theorem summary_amounts (db : Db) (req : GenerateSummaryRequest)
    (hpk : (db.category.map (fun c => c.id)).Nodup)
    (hfk : ∀ r ∈ db.expense, ∃ c ∈ db.category, c.id = r.category_id) :
    summaryExpenseAmount db req =
      ((db.expense.filter (fun r =>
          decide (req.start_date ≤ r.date) && decide (r.date ≤ req.end_date) &&
            decide (r.category_id ∉ req.exclude_category_ids))).map (fun r => r.amount)).sum
  ∧ summaryIncomeAmount db req =
      ((db.income.filter (fun r =>
          decide (req.start_date ≤ r.date) && decide (r.date ≤ req.end_date))).map
        (fun r => r.amount)).sum
  ∧ (db.expense.filter (fun r =>
        decide (req.start_date ≤ r.date) && decide (r.date ≤ req.end_date) &&
          decide (r.category_id ∉ req.exclude_category_ids)) = [] →
      summaryExpenseAmount db req = 0)
  ∧ (db.income.filter (fun r =>
        decide (req.start_date ≤ r.date) && decide (r.date ≤ req.end_date)) = [] →
      summaryIncomeAmount db req = 0) := by
  have hexp : summaryExpenseAmount db req =
      ((db.expense.filter (fun r =>
          decide (req.start_date ≤ r.date) && decide (r.date ≤ req.end_date) &&
            decide (r.category_id ∉ req.exclude_category_ids))).map (fun r => r.amount)).sum := by
    unfold summaryExpenseAmount filtered_expense
    rw [join_eq_self db.category hpk db.expense hfk]
    congr 1
    apply congrArg
    apply List.filter_congr
    intro a _
    rw [all_ne_eq_not_mem]
  refine ⟨hexp, rfl, fun h => ?_, fun h => ?_⟩
  · rw [hexp, h]
    rfl
  · unfold summaryIncomeAmount filtered_income
    rw [h]
    rfl

/-- Witness for claim C4: three expenses (100 in range, 50 in the excluded
category, 70 out of range) and two incomes (40 in range, 60 out) give
totals 100 and 40. -/
theorem summary_amounts_witness :
    summaryExpenseAmount dbC4 reqC4 = 100 ∧ summaryIncomeAmount dbC4 reqC4 = 40 := by
  have h := summary_amounts dbC4 reqC4 (by decide) (by decide)
  refine ⟨?_, ?_⟩
  · rw [h.1]
    decide
  · rw [h.2.1]
    decide

/-- Claim C5 (divergence witness): with one wallet "A" holding two income
rows (10 and 20) in range, the implemented `GROUP BY w.name, fi.amount`
produces two entries for the same wallet name — not one entry carrying the
wallet's total 30 as the spec describes. -/
theorem wallet_summary_divergence :
    income_wallets_list dbC5 reqC5 = [("A", 20), ("A", 10)]
  ∧ spec_wallet_totals dbC5 reqC5 = [("A", 30)]
  ∧ income_wallets_list dbC5 reqC5 ≠ spec_wallet_totals dbC5 reqC5 := by
  refine ⟨?_, ?_, ?_⟩ <;> decide

/-- Claim C9 counterexample: (a) with a non-important tag "alpha" and an
important tag "beta", the tag listing orders by name only, so the
non-important tag comes first — the claimed important-before-others
ordering fails; (b) the category listing returns "B" before "a" (raw
codepoint order of `ORDER BY name`), violating the claimed
case-insensitive order, under which "a" precedes "B"; (c) the tag listing
does the same on equally-important tags "B" and "a". -/
theorem tags_listing_counterexample :
    (UtilRepository.find_many_tags dbC9 none 0 10 =
        [⟨1, "alpha", false⟩, ⟨2, "beta", true⟩]
      ∧ ¬ importantFirst (UtilRepository.find_many_tags dbC9 none 0 10))
  ∧ (UtilRepository.find_many_categories dbC9 0 10 = [⟨1, "B", 1⟩, ⟨2, "a", 1⟩]
      ∧ ¬ caseInsensitiveOrdered
          ((UtilRepository.find_many_categories dbC9 0 10).map (fun c => c.name)))
  ∧ (UtilRepository.find_many_tags dbC9b none 0 10 =
        [⟨3, "B", false⟩, ⟨4, "a", false⟩]
      ∧ ¬ caseInsensitiveOrdered
          ((UtilRepository.find_many_tags dbC9b none 0 10).map (fun t => t.name))) := by
  have hle : ("alpha" : String) ≤ "beta" := by
    rw [String.le_iff_toList_le]
    decide
  have hBa : ("B" : String) ≤ "a" := by
    rw [String.le_iff_toList_le]
    decide
  have hsort : List.insertionSort (fun a b : TagRow => a.name ≤ b.name)
      [⟨1, "alpha", false⟩, ⟨2, "beta", true⟩] =
        [⟨1, "alpha", false⟩, ⟨2, "beta", true⟩] := by
    simp only [List.insertionSort, List.orderedInsert]
    rw [if_pos hle]
  have h : UtilRepository.find_many_tags dbC9 none 0 10 =
      [⟨1, "alpha", false⟩, ⟨2, "beta", true⟩] := by
    show paginate 0 10 (List.insertionSort (fun a b : TagRow => a.name ≤ b.name)
      [⟨1, "alpha", false⟩, ⟨2, "beta", true⟩]) = [⟨1, "alpha", false⟩, ⟨2, "beta", true⟩]
    rw [hsort]
    rfl
  have hsortC : List.insertionSort (fun a b : CategoryRow => a.name ≤ b.name)
      [⟨1, "B", 1⟩, ⟨2, "a", 1⟩] = [⟨1, "B", 1⟩, ⟨2, "a", 1⟩] := by
    simp only [List.insertionSort, List.orderedInsert]
    rw [if_pos hBa]
  have hcat : UtilRepository.find_many_categories dbC9 0 10 =
      [⟨1, "B", 1⟩, ⟨2, "a", 1⟩] := by
    show paginate 0 10 (List.insertionSort (fun a b : CategoryRow => a.name ≤ b.name)
      [⟨1, "B", 1⟩, ⟨2, "a", 1⟩]) = [⟨1, "B", 1⟩, ⟨2, "a", 1⟩]
    rw [hsortC]
    rfl
  have hsortT : List.insertionSort (fun a b : TagRow => a.name ≤ b.name)
      [⟨3, "B", false⟩, ⟨4, "a", false⟩] = [⟨3, "B", false⟩, ⟨4, "a", false⟩] := by
    simp only [List.insertionSort, List.orderedInsert]
    rw [if_pos hBa]
  have htag : UtilRepository.find_many_tags dbC9b none 0 10 =
      [⟨3, "B", false⟩, ⟨4, "a", false⟩] := by
    show paginate 0 10 (List.insertionSort (fun a b : TagRow => a.name ≤ b.name)
      [⟨3, "B", false⟩, ⟨4, "a", false⟩]) = [⟨3, "B", false⟩, ⟨4, "a", false⟩]
    rw [hsortT]
    rfl
  refine ⟨⟨h, ?_⟩, ⟨hcat, ?_⟩, ⟨htag, ?_⟩⟩
  · rw [importantFirst, h]
    intro hp
    have h1 := (List.pairwise_cons.mp hp).1 ⟨2, "beta", true⟩ (by simp)
    exact Bool.noConfusion (h1 rfl)
  · rw [hcat]
    intro hp
    have h1 := (List.pairwise_cons.mp hp).1 "a" (by simp)
    rw [caseInsensitiveLE] at h1
    exact absurd h1 (by decide)
  · rw [htag]
    intro hp
    have h1 := (List.pairwise_cons.mp hp).1 "a" (by simp)
    rw [caseInsensitiveLE] at h1
    exact absurd h1 (by decide)

/-- Helper: `OFFSET/LIMIT` pagination preserves any pairwise ordering. -/
theorem pairwise_paginate {α : Type} (R : α → α → Prop) (o l : Int) (rows : List α)
    (h : rows.Pairwise R) : (paginate o l rows).Pairwise R := by
  unfold paginate
  exact h.sublist ((List.take_sublist _ _).trans (List.drop_sublist _ _))

/-- Claim C9 amended: the wallet repository listing is ordered by
case-insensitive name (`ORDER BY LOWER(name)`), while the category and tag
listings are ordered by raw name with no case folding, and tag listings
apply no importance precedence (that ordering exists only in the per-expense
tag aggregation of `find_one`/`find_latest`). -/
theorem lookup_listing_order (db : Db) (mark : Option Bool) (o l : Int) :
    ((UtilRepository.find_many_categories db o l).map (fun c => c.name)).Pairwise (· ≤ ·)
  ∧ ((UtilRepository.find_many_tags db mark o l).map (fun t => t.name)).Pairwise (· ≤ ·)
  ∧ ((WalletRepository.find_many db o l).map (fun w => w.name.toLower)).Pairwise (· ≤ ·) := by
  refine ⟨?_, ?_, ?_⟩
  · exact List.pairwise_map.mpr
      (pairwise_paginate _ o l _ (List.sorted_insertionSort _ db.category))
  · exact List.pairwise_map.mpr
      (pairwise_paginate _ o l _ (List.sorted_insertionSort _ _))
  · exact List.pairwise_map.mpr
      (pairwise_paginate _ o l _ (List.sorted_insertionSort _ db.wallet))

end Rekapundi
